import Mathlib

/-!
Verification of the chart-data synthesis pipeline of an AI CSV-agent backend.

The embedding models the pandas-based pipeline in `chart_processor.py`
(`create_chartjs_data`, `convert_to_numeric`, `remove_outliers_iqr`) and the
first-offset candidate ranking in `ai_agent.py`
(`find_substrings_in_response` and the selection logic in
`process_data_and_plot`).

Modelling conventions:
- a pandas DataFrame is a list of named columns, each column carrying a
  homogeneous dtype: `int64` (`ColData.ints`), `float64` (`ColData.floats`,
  values modelled exactly as rationals) or `object` (`ColData.strs`);
- raised Python exceptions are modelled with `Except Err`;
- `convert_to_numeric` mutates its argument in place, so
  `create_chartjs_data` returns, next to its result, the dataset the caller
  observes after the call;
- `Series.quantile` uses linear interpolation (the pandas default); on a
  nonempty `object` column it raises `TypeError` (string arithmetic inside
  the percentile interpolation), on an empty column it yields NaN, which
  makes the boolean mask reject everything (vacuously, since there are no
  rows), so the empty case is modelled as an empty mask.
-/

/-- A pandas column body: `int64`, `float64` or `object` (strings). -/
inductive ColData where
  | ints : List ℤ → ColData
  | floats : List ℚ → ColData
  | strs : List String → ColData
deriving DecidableEq, Repr

/-- A named DataFrame column. -/
structure Col where
  name : String
  data : ColData
deriving DecidableEq, Repr

/-- A pandas DataFrame: an ordered list of named homogeneous columns. -/
abbrev DataFrame := List Col

/-- Number of cells in a column body. -/
def colLen : ColData → ℕ
  | ColData.ints vs => vs.length
  | ColData.floats vs => vs.length
  | ColData.strs ss => ss.length

/-- `df[c]`: the body of the first column named `c`, if any. -/
def findCol : DataFrame → String → Option ColData
  | [], _ => none
  | col :: rest, c => if col.name == c then some col.data else findCol rest c

/-- Apply a transformation to every column body, keeping names and order. -/
def mapData (f : ColData → ColData) (df : DataFrame) : DataFrame :=
  df.map (fun col => { col with data := f col.data })

/-- Python `str.lower()`, written over the characters. -/
def strToLower (s : String) : String := String.mk (s.toList.map Char.toLower)

/-- `is_integer_dtype` on a column. -/
def isIntegerDtype : ColData → Bool
  | ColData.ints _ => true
  | _ => false

/-- `is_numeric_dtype` on a column. -/
def isNumericDtype : ColData → Bool
  | ColData.strs _ => false
  | _ => true

/-- Rational arithmetic written through `mkRat` on numerators and
denominators, so that closed computations reduce inside the kernel; the
bridge lemmas `qAdd_eq`, `qSub_eq`, `qMul_eq` and `qDiv_eq` below prove these
are exactly the field operations of `ℚ`. -/
def natToRat (n : ℕ) : ℚ := mkRat (n : ℤ) 1

def qAdd (a b : ℚ) : ℚ := mkRat (a.num * (b.den : ℤ) + b.num * (a.den : ℤ)) (a.den * b.den)

def qSub (a b : ℚ) : ℚ := mkRat (a.num * (b.den : ℤ) - b.num * (a.den : ℤ)) (a.den * b.den)

def qMul (a b : ℚ) : ℚ := mkRat (a.num * b.num) (a.den * b.den)

def qDiv (a b : ℚ) : ℚ :=
  if 0 ≤ b.num then mkRat (a.num * (b.den : ℤ)) (a.den * b.num.toNat)
  else mkRat (-(a.num * (b.den : ℤ))) (a.den * (-b.num).toNat)

/-- Digit run to a natural number (base 10). -/
def digitsToNat (cs : List Char) : ℕ :=
  cs.foldl (fun a c => a * 10 + (c.toNat - 48)) 0

/-- All characters are decimal digits. -/
def allDigits (cs : List Char) : Bool := cs.all Char.isDigit

/-- Unsigned decimal numeral: digits with at most one decimal point. -/
def parseUnsigned (cs : List Char) : Option ℚ :=
  match cs.span (fun c => c != '.') with
  | (intp, []) =>
      if intp ≠ [] ∧ allDigits intp then some (natToRat (digitsToNat intp)) else none
  | (intp, _ :: fracp) =>
      if allDigits intp ∧ allDigits fracp ∧ (intp ≠ [] ∨ fracp ≠ []) then
        some (qAdd (natToRat (digitsToNat intp))
          (qDiv (natToRat (digitsToNat fracp)) (natToRat (10 ^ fracp.length))))
      else none

/-- Numeric parsing of one cell, as `pd.to_numeric` / Python `float` accept a
plain decimal numeral with optional sign; a cell that does not parse is the
`None` case (pandas coerces it to NaN). -/
def parseNum (s : String) : Option ℚ :=
  match s.toList with
  | [] => none
  | '-' :: rest => (parseUnsigned rest).map Rat.neg
  | '+' :: rest => parseUnsigned rest
  | cs => parseUnsigned cs

/-- Python `int(string)`: optional sign followed by digits only; in
particular `int "2.0"` and `int "A"` fail. -/
def pyIntParse (s : String) : Option ℤ :=
  match s.toList with
  | '-' :: rest =>
      if rest ≠ [] ∧ allDigits rest then some (-(digitsToNat rest : ℤ)) else none
  | '+' :: rest =>
      if rest ≠ [] ∧ allDigits rest then some ((digitsToNat rest : ℤ)) else none
  | cs => if cs ≠ [] ∧ allDigits cs then some ((digitsToNat cs : ℤ)) else none

/-- Python `int(float)`: truncation toward zero. -/
def pyTrunc (q : ℚ) : ℤ := Int.tdiv q.num (q.den : ℤ)

/-- The parsed value has no fractional part (`x == int(x)` in the source). -/
def isIntegral (q : ℚ) : Bool := q.den == 1

/-- `pd.to_numeric(column, errors="coerce")` followed by the `isnull().any()`
check: every cell must parse, else the column is treated as unconvertible. -/
def parseAll : List String → Option (List ℚ)
  | [] => some []
  | s :: ss =>
      match parseNum s, parseAll ss with
      | some q, some qs => some (q :: qs)
      | _, _ => none

/-- One column of `convert_to_numeric`: an `int64` column stays; a `float64`
column becomes `int64` when every value is integral, else is kept as is (the
`Keeping as is` branch of the source); an `object` column becomes `int64`
when every cell parses numerically and every value is integral, and is kept
as is otherwise (some cell fails to parse, or some value is fractional). -/
def convCol : ColData → ColData
  | ColData.ints vs => ColData.ints vs
  | ColData.floats vs =>
      if vs.all isIntegral then ColData.ints (vs.map Rat.num) else ColData.floats vs
  | ColData.strs ss =>
      match parseAll ss with
      | none => ColData.strs ss
      | some qs =>
          if qs.all isIntegral then ColData.ints (qs.map Rat.num) else ColData.strs ss

/-- `convert_to_numeric(df)`: per-column best-effort coercion, applied to the
caller's DataFrame in place. -/
def convert_to_numeric (df : DataFrame) : DataFrame := mapData convCol df

/-- Insert into a sorted list of rationals (ascending). -/
def insertQ (x : ℚ) : List ℚ → List ℚ
  | [] => [x]
  | y :: ys => if x ≤ y then x :: y :: ys else y :: insertQ x ys

/-- Sort rationals ascending. -/
def sortQ : List ℚ → List ℚ
  | [] => []
  | x :: xs => insertQ x (sortQ xs)

/-- `Series.quantile(q)` with the default linear interpolation: at fractional
position `q * (n - 1)` in the ascending order statistics. -/
def quantileLinear (q : ℚ) (vs : List ℚ) : ℚ :=
  let s := sortQ vs
  let pos : ℚ := qMul q (qSub (natToRat s.length) (natToRat 1))
  let i : ℕ := (Int.floor pos).toNat
  let lo := s.getD i 0
  let hi := s.getD (i + 1) lo
  qAdd lo (qMul (qSub pos (natToRat i)) (qSub hi lo))

/-- `Q1 - 1.5 * IQR` of the source. -/
def lowerBound (vs : List ℚ) : ℚ :=
  qSub (quantileLinear (mkRat 1 4) vs)
    (qMul (mkRat 3 2) (qSub (quantileLinear (mkRat 3 4) vs) (quantileLinear (mkRat 1 4) vs)))

/-- `Q3 + 1.5 * IQR` of the source. -/
def upperBound (vs : List ℚ) : ℚ :=
  qAdd (quantileLinear (mkRat 3 4) vs)
    (qMul (mkRat 3 2) (qSub (quantileLinear (mkRat 3 4) vs) (quantileLinear (mkRat 1 4) vs)))

/-- The boolean row mask `(df[c] >= lower_bound) & (df[c] <= upper_bound)`. -/
def inBoundsB (vs : List ℚ) (v : ℚ) : Bool :=
  decide (lowerBound vs ≤ v) && decide (v ≤ upperBound vs)

/-- Select the elements of a list marked `true` by a row mask. -/
def maskSelect : List Bool → List α → List α
  | b :: ms, x :: xs => if b then x :: maskSelect ms xs else maskSelect ms xs
  | _, _ => []

/-- Apply a row mask to a column body. -/
def maskCol (mask : List Bool) : ColData → ColData
  | ColData.ints vs => ColData.ints (maskSelect mask vs)
  | ColData.floats vs => ColData.floats (maskSelect mask vs)
  | ColData.strs ss => ColData.strs (maskSelect mask ss)

/-- Raised Python exceptions. -/
inductive Err where
  | valueError : String → Err
  | keyError : String → Err
  | typeError : String → Err
deriving DecidableEq, Repr

instance {ε α : Type} [DecidableEq ε] [DecidableEq α] : DecidableEq (Except ε α) :=
  fun x y =>
    match x, y with
    | Except.ok a, Except.ok b =>
        if h : a = b then Decidable.isTrue (h ▸ rfl)
        else Decidable.isFalse (fun hc => h (Except.ok.inj hc))
    | Except.error e, Except.error f =>
        if h : e = f then Decidable.isTrue (h ▸ rfl)
        else Decidable.isFalse (fun hc => h (Except.error.inj hc))
    | Except.ok _, Except.error _ => Decidable.isFalse (fun hc => Except.noConfusion hc)
    | Except.error _, Except.ok _ => Decidable.isFalse (fun hc => Except.noConfusion hc)

/-- An `int64` cell seen as an exact numeric value. -/
def intToRat (n : ℤ) : ℚ := mkRat n 1

/-- The numeric view pandas takes of a column for `quantile` and the
comparison mask: `int64` and `float64` columns give their values; a nonempty
`object` column makes `quantile` raise `TypeError` (the `none` case); an
empty column gives no values (NaN quantiles, empty mask). -/
def colValsQ : ColData → Option (List ℚ)
  | ColData.ints vs => some (vs.map intToRat)
  | ColData.floats vs => some vs
  | ColData.strs ss => if ss.isEmpty then some [] else none

/-- `remove_outliers_iqr(dataframe, column_name)`: quantile bounds on the
named column, then boolean-mask row filtering of the whole DataFrame.
A missing column raises `KeyError`; a nonempty text column raises
`TypeError` inside `quantile`. -/
def remove_outliers_iqr (df : DataFrame) (column_name : String) : Except Err DataFrame :=
  match findCol df column_name with
  | none => Except.error (Err.keyError column_name)
  | some cd =>
      match colValsQ cd with
      | none => Except.error (Err.typeError ("cannot compute quantile on object dtype"))
      | some vs =>
          Except.ok (mapData (maskCol (vs.map (inBoundsB vs))) df)

/-- A scalar landing in the Chart.js payload: Python int or float. -/
inductive Val where
  | i : ℤ → Val
  | f : ℚ → Val
deriving DecidableEq, Repr

/-- Numeric value of a payload scalar. -/
def Val.toRat : Val → ℚ
  | Val.i n => intToRat n
  | Val.f q => q

/-- One record of the payload `data` array: keys in insertion order. -/
abbrev Entry := List (String × Val)

/-- The sort key of `sorted(..., key=lambda item: list(item.values())[0])`:
the first value of the record. -/
def entryKey : Entry → ℚ
  | [] => 0
  | (_, v) :: _ => v.toRat

/-- Ordering of records by their first value. -/
def entryLe (a b : Entry) : Prop := entryKey a ≤ entryKey b

instance : DecidableRel entryLe :=
  fun a b => inferInstanceAs (Decidable (entryKey a ≤ entryKey b))

instance : IsTotal Entry entryLe := ⟨fun a b => le_total (entryKey a) (entryKey b)⟩

instance : IsTrans Entry entryLe := ⟨fun _ _ _ => le_trans⟩

/-- Cell coercion `int(v) if is_integer_dtype(col) else float(v)` applied to
a whole column; `float` on a non-numeric string raises `ValueError`. -/
def coerceColVals : ColData → Except Err (List Val)
  | ColData.ints vs => Except.ok (vs.map Val.i)
  | ColData.floats vs => Except.ok (vs.map Val.f)
  | ColData.strs ss =>
      ss.mapM (fun s =>
        match parseNum s with
        | some q => Except.ok (Val.f q)
        | none => Except.error (Err.valueError ("could not convert string to float: " ++ s)))

/-- The label seeding `int(val) for val in df[labels_col].tolist()`:
`int` of an int is itself, `int` of a float truncates, `int` of a
non-integral string raises `ValueError`. -/
def pyIntOfCell : ColData → Except Err (List Val)
  | ColData.ints vs => Except.ok (vs.map Val.i)
  | ColData.floats vs => Except.ok (vs.map (fun q => Val.i (pyTrunc q)))
  | ColData.strs ss =>
      ss.mapM (fun s =>
        match pyIntParse s with
        | some n => Except.ok (Val.i n)
        | none => Except.error (Err.valueError ("invalid literal for int with base 10: " ++ s)))

/-- Write the chosen value column into each seeded record
(`chart_data["data"][i][col] = ...`). -/
def zipAppend (es : List Entry) (k : String) (ws : List Val) : List Entry :=
  (es.zip ws).map (fun p => p.1 ++ [(k, p.2)])

/-- Group consecutive records sharing the same first value. -/
def chunkBy : List Entry → List (List Entry)
  | [] => []
  | e :: es =>
      match chunkBy es with
      | [] => [[e]]
      | [] :: rest => [e] :: rest
      | (e2 :: ch) :: rest =>
          if entryKey e == entryKey e2 then (e :: e2 :: ch) :: rest
          else [e] :: (e2 :: ch) :: rest

/-- Sum of rationals. -/
def sumQ (qs : List ℚ) : ℚ := qs.foldl qAdd (natToRat 0)

/-- Arithmetic mean. -/
def meanQ (qs : List ℚ) : ℚ := qDiv (sumQ qs) (natToRat qs.length)

/-- Aggregate one label group: the group key first (`reset_index`), then the
mean of every remaining numeric field (pandas means are float64). -/
def aggChunk (labels_col : String) (ch : List Entry) : Entry :=
  match ch with
  | [] => []
  | e :: _ =>
      let labelVal := match e with | [] => Val.i 0 | (_, v) :: _ => v
      let restKeys := (e.drop 1).map Prod.fst
      (labels_col, labelVal) ::
        restKeys.map (fun k =>
          (k, Val.f (meanQ (ch.map (fun e2 => ((e2.lookup k).getD (Val.i 0)).toRat)))))

/-- The `groupby(aggregate_by_col).agg(mean)` step on the already sorted
`data` array. -/
def groupMean (labels_col : String) (es : List Entry) : List Entry :=
  (chunkBy es).map (aggChunk labels_col)

/-- The Chart.js payload: `hasScales` models the presence of the
`options["scales"]` entry (popped for pie/doughnut), `xTitle` models
`options["scales"]["x"]["title"]["text"]`. -/
structure Chart where
  chartType : String
  labelsKey : String
  valuesKey : String
  data : List Entry
  hasScales : Bool
  xTitle : String
deriving DecidableEq, Repr

/-- Pie/doughnut branch: exactly two columns, one record per row with the two
selected keys, then `options.pop("scales")`; the subsequent unconditional
write to `options["scales"]["x"]["title"]["text"]` (line 110 of the source)
raises `KeyError` on this path. -/
def buildPie (dff : DataFrame) (column_names : List String) (chart_type : String) :
    Except Err Chart :=
  match column_names with
  | [labels_col, values_col] =>
      match findCol dff labels_col, findCol dff values_col with
      | some lcd, some vcd =>
          match coerceColVals lcd, coerceColVals vcd with
          | Except.ok _, Except.ok _ =>
              Except.error (Err.keyError ("scales"))
          | Except.error e, _ => Except.error e
          | _, Except.error e => Except.error e
      | none, _ => Except.error (Err.keyError labels_col)
      | _, none => Except.error (Err.keyError values_col)
  | _ =>
      Except.error (Err.valueError
        ("For " ++ chart_type ++ " charts, column_names must contain exactly two columns"))

/-- Bar/line (default) branch: seed records from the label column via
Python `int`, attach the single value column (or the first numeric one of
several), set the x-axis title, sort records by label, group by the first
selected column and aggregate by arithmetic mean. An empty `data` array makes
the `groupby` raise `KeyError` (the frame built from `[]` has no columns). -/
def buildBar (dff : DataFrame) (column_names : List String) (chart_type : String) :
    Except Err Chart :=
  match column_names with
  | [] => Except.error (Err.valueError ("column_names cannot be empty."))
  | labels_col :: value_columns =>
      match findCol dff labels_col with
      | none => Except.error (Err.keyError labels_col)
      | some lcd =>
          match pyIntOfCell lcd with
          | Except.error e => Except.error e
          | Except.ok labelVals =>
              let entries0 : List Entry := labelVals.map (fun v => [(labels_col, v)])
              let step2 : Except Err (String × List Entry) :=
                match value_columns with
                | [] => Except.ok (("Value", entries0))
                | [vc] =>
                    match findCol dff vc with
                    | none => Except.error (Err.keyError vc)
                    | some cd =>
                        match coerceColVals cd with
                        | Except.error e => Except.error e
                        | Except.ok ws => Except.ok ((vc, zipAppend entries0 vc ws))
                | _ =>
                    match value_columns.find? (fun vc =>
                        match findCol dff vc with
                        | some cd => isNumericDtype cd
                        | none => false) with
                    | none =>
                        Except.error (Err.valueError
                          ("No numeric column found to represent value in the selected columns."))
                    | some vc =>
                        match findCol dff vc with
                        | none => Except.error (Err.keyError vc)
                        | some cd =>
                            match coerceColVals cd with
                            | Except.error e => Except.error e
                            | Except.ok ws => Except.ok ((vc, zipAppend entries0 vc ws))
              match step2 with
              | Except.error e => Except.error e
              | Except.ok (valuesKey, entries) =>
                  let sortedE := List.insertionSort entryLe entries
                  if sortedE.isEmpty then Except.error (Err.keyError labels_col)
                  else
                    Except.ok
                      { chartType := chart_type, labelsKey := labels_col,
                        valuesKey := valuesKey,
                        data := groupMean labels_col sortedE,
                        hasScales := true, xTitle := labels_col }

/-- The body of `create_chartjs_data` after the in-place type coercion:
chained outlier removal over the selected columns, then the emptiness and
existence validation, then the per-chart-type build. -/
def buildChart (df0 : DataFrame) (column_names : List String) (chart_type : String) :
    Except Err Chart :=
  match column_names.foldlM remove_outliers_iqr df0 with
  | Except.error e => Except.error e
  | Except.ok dff =>
      if column_names.isEmpty then
        Except.error (Err.valueError ("column_names cannot be empty."))
      else if !(column_names.filter (fun c => (findCol dff c).isNone)).isEmpty then
        Except.error (Err.valueError ("Columns not found in DataFrame"))
      else if ["pie", "doughnut"].contains (strToLower chart_type) then
        buildPie dff column_names chart_type
      else
        buildBar dff column_names chart_type

/-- `create_chartjs_data(df, column_names, chart_type)`: the returned pair is
the call's result and the dataset the caller observes afterwards
(`convert_to_numeric` mutated the caller's DataFrame in place before any
further step; the chained `remove_outliers_iqr` rebinds a local name only). -/
def create_chartjs_data (df : DataFrame) (column_names : List String) (chart_type : String) :
    Except Err Chart × DataFrame :=
  let df0 := convert_to_numeric df
  ((buildChart df0 column_names chart_type), df0)

/-- The call returned a payload (raised no exception). -/
def isOkB : Except Err Chart → Bool
  | Except.ok _ => true
  | Except.error _ => false

/-- The looked-up column is floating point. -/
def isFloatColB : Option ColData → Bool
  | some (ColData.floats _) => true
  | _ => false

/-- `str.find` over the characters of the text, first offset or `-1`. -/
def findAux (p : List Char) : List Char → ℕ → Int
  | [], i => if p.isPrefixOf ([] : List Char) then (i : Int) else -1
  | c :: ts, i => if p.isPrefixOf (c :: ts) then (i : Int) else findAux p ts (i + 1)

/-- Python `response_str.find(key)`: smallest character offset at which
`pat` occurs as a substring of `text`, or `-1` when absent. -/
def strFind (text pat : String) : Int := findAux pat.toList text.toList 0

/-- `find_substrings_in_response`: record the first offset of every
candidate. -/
def find_substrings_in_response (response : String) (keys : List String) :
    List (String × Int) :=
  keys.map (fun k => (k, strFind response k))

/-- Ordering of candidates by recorded offset (`sorted(..., key=item[1])`). -/
def rankLe (p q : String × Int) : Prop := p.2 ≤ q.2

instance : DecidableRel rankLe :=
  fun p q => inferInstanceAs (Decidable (p.2 ≤ q.2))

instance : IsTotal (String × Int) rankLe := ⟨fun a b => Int.le_total a.2 b.2⟩

instance : IsTrans (String × Int) rankLe := ⟨fun _ _ _ => Int.le_trans⟩

/-- The ranking built in `process_data_and_plot`: drop the `-1` no-match
entries, then sort ascending by first offset (Python's stable sort). -/
def rankCandidates (response : String) (keys : List String) : List (String × Int) :=
  List.insertionSort rankLe
    ((find_substrings_in_response response keys).filter (fun p => p.2 != -1))

/-- The fixed chart-type vocabulary `{"bar": -1, "line": -1, "pie": -1}`. -/
def chartTypeKeys : List String := ["bar", "line", "pie"]

/-- `choosen_chart_type = next(iter(sorted_chart_types))`: the head of the
chart-type ranking. -/
def choose_chart_type (response : String) : Option String :=
  (rankCandidates response chartTypeKeys).head?.map Prod.fst

/-- Per-variant sublist relation between column bodies (row filtering keeps
dtype and relative order). -/
def dataSublist : ColData → ColData → Prop
  | ColData.ints a, ColData.ints b => a.Sublist b
  | ColData.floats a, ColData.floats b => a.Sublist b
  | ColData.strs a, ColData.strs b => a.Sublist b
  | _, _ => False

theorem natToRat_eq (n : ℕ) : natToRat n = (n : ℚ) := by
  rw [natToRat, Rat.mkRat_one]
  norm_cast

theorem intToRat_eq (n : ℤ) : intToRat n = (n : ℚ) := by
  rw [intToRat, Rat.mkRat_one]

theorem qAdd_eq (a b : ℚ) : qAdd a b = a + b := by
  have ha : ((a.den : ℚ)) ≠ 0 := Nat.cast_ne_zero.mpr (Rat.den_ne_zero a)
  have hb : ((b.den : ℚ)) ≠ 0 := Nat.cast_ne_zero.mpr (Rat.den_ne_zero b)
  rw [qAdd, Rat.mkRat_eq_divInt, Rat.divInt_eq_div]
  conv_rhs => rw [← Rat.num_div_den a, ← Rat.num_div_den b]
  rw [div_add_div _ _ ha hb]
  push_cast
  ring_nf

theorem qSub_eq (a b : ℚ) : qSub a b = a - b := by
  have ha : ((a.den : ℚ)) ≠ 0 := Nat.cast_ne_zero.mpr (Rat.den_ne_zero a)
  have hb : ((b.den : ℚ)) ≠ 0 := Nat.cast_ne_zero.mpr (Rat.den_ne_zero b)
  rw [qSub, Rat.mkRat_eq_divInt, Rat.divInt_eq_div]
  conv_rhs => rw [← Rat.num_div_den a, ← Rat.num_div_den b]
  rw [div_sub_div _ _ ha hb]
  push_cast
  ring_nf

theorem qMul_eq (a b : ℚ) : qMul a b = a * b := by
  rw [qMul, Rat.mkRat_eq_divInt, Rat.divInt_eq_div]
  conv_rhs => rw [← Rat.num_div_den a, ← Rat.num_div_den b]
  rw [div_mul_div_comm]
  push_cast
  ring_nf

theorem qDiv_eq (a b : ℚ) : qDiv a b = a / b := by
  have ha : ((a.den : ℚ)) ≠ 0 := Nat.cast_ne_zero.mpr (Rat.den_ne_zero a)
  have hb : ((b.den : ℚ)) ≠ 0 := Nat.cast_ne_zero.mpr (Rat.den_ne_zero b)
  by_cases hz : b.num = 0
  · have hb0 : b = 0 := Rat.num_eq_zero.mp hz
    rw [hb0, div_zero, qDiv]
    simp [Rat.mkRat_eq_divInt]
  · have hbn : ((b.num : ℚ)) ≠ 0 := Int.cast_ne_zero.mpr hz
    rcases lt_or_gt_of_ne hz with hneg | hpos
    · have hle : ¬(0 ≤ b.num) := not_le.mpr hneg
      have hnumQ : (((-b.num).toNat : ℚ)) = -((b.num : ℚ)) := by
        have h := Int.toNat_of_nonneg (show (0 : ℤ) ≤ -b.num by omega)
        exact_mod_cast h
      rw [qDiv, if_neg hle, Rat.mkRat_eq_divInt, Rat.divInt_eq_div]
      conv_rhs => rw [← Rat.num_div_den a, ← Rat.num_div_den b]
      push_cast [hnumQ]
      field_simp
    · have hle : 0 ≤ b.num := le_of_lt hpos
      have hnumQ : ((b.num.toNat : ℚ)) = ((b.num : ℚ)) := by
        exact_mod_cast Int.toNat_of_nonneg hle
      rw [qDiv, if_pos hle, Rat.mkRat_eq_divInt, Rat.divInt_eq_div]
      conv_rhs => rw [← Rat.num_div_den a, ← Rat.num_div_den b]
      push_cast [hnumQ]
      field_simp

theorem findCol_mapData (f : ColData → ColData) (df : DataFrame) (c : String) :
    findCol (mapData f df) c = (findCol df c).map f := by
  induction df with
  | nil => rfl
  | cons col rest ih =>
      simp only [mapData, List.map_cons, findCol] at ih ⊢
      by_cases h : col.name == c
      · simp [h]
      · simp [h, ih]

theorem maskSelect_nil (l : List α) : maskSelect ([] : List Bool) l = [] := by
  cases l <;> rfl

theorem maskSelect_nil_list (m : List Bool) : maskSelect m ([] : List α) = [] := by
  cases m <;> rfl

theorem maskSelect_sublist (m : List Bool) (l : List α) : (maskSelect m l).Sublist l := by
  induction m generalizing l with
  | nil => cases l <;> simp [maskSelect]
  | cons b ms ih =>
      cases l with
      | nil => simp [maskSelect]
      | cons x xs =>
          cases b with
          | true => simpa [maskSelect] using (ih xs).cons₂ x
          | false => simpa [maskSelect] using (ih xs).cons x

theorem maskSelect_map (f : α → β) (m : List Bool) (l : List α) :
    maskSelect m (l.map f) = (maskSelect m l).map f := by
  induction m generalizing l with
  | nil => cases l <;> rfl
  | cons b ms ih =>
      cases l with
      | nil => rfl
      | cons x xs => cases b <;> simp [maskSelect, ih]

theorem maskSelect_map_filter (p : α → Bool) (l : List α) :
    maskSelect (l.map p) l = l.filter p := by
  induction l with
  | nil => rfl
  | cons x xs ih => by_cases h : p x <;> simp [maskSelect, List.filter_cons, h, ih]

theorem colValsQ_maskCol (m : List Bool) (cd : ColData) (vs : List ℚ)
    (h : colValsQ cd = some vs) :
    colValsQ (maskCol m cd) = some (maskSelect m vs) := by
  cases cd with
  | ints ws =>
      simp only [colValsQ, Option.some.injEq] at h
      subst h
      show some ((maskSelect m ws).map intToRat) = some (maskSelect m (ws.map intToRat))
      rw [maskSelect_map]
  | floats ws =>
      simp only [colValsQ, Option.some.injEq] at h
      subst h
      rfl
  | strs ss =>
      by_cases he : ss.isEmpty
      · have hss : ss = [] := List.isEmpty_iff.mp he
        subst hss
        simp only [colValsQ, List.isEmpty_nil, if_true, Option.some.injEq] at h
        subst h
        show colValsQ (ColData.strs (maskSelect m [])) = some (maskSelect m [])
        simp [maskSelect_nil_list, colValsQ]
      · simp [colValsQ, he] at h

theorem convCol_idem (cd : ColData) : convCol (convCol cd) = convCol cd := by
  cases cd with
  | ints vs => rfl
  | floats vs =>
      by_cases h : vs.all isIntegral
      · simp [convCol, h]
      · simp [convCol, h]
  | strs ss =>
      rcases hp : parseAll ss with _ | qs
      · simp [convCol, hp]
      · by_cases h : qs.all isIntegral
        · simp [convCol, hp, h]
        · simp [convCol, hp, h]

theorem findCol_mem (df : DataFrame) (c : String) (cd : ColData)
    (h : findCol df c = some cd) : ∃ col, col ∈ df ∧ col.name = c ∧ col.data = cd := by
  induction df with
  | nil => simp [findCol] at h
  | cons col rest ih =>
      simp only [findCol] at h
      by_cases hn : col.name == c
      · rw [if_pos hn] at h
        exact ⟨col, List.mem_cons_self col rest, by simpa using hn, by simpa using h⟩
      · rw [if_neg hn] at h
        obtain ⟨col1, hm, hc, hd⟩ := ih h
        exact ⟨col1, List.mem_cons_of_mem col hm, hc, hd⟩

theorem mem_rankCandidates (text : String) (keys : List String) (p : String × Int)
    (hp : p ∈ rankCandidates text keys) :
    p.1 ∈ keys ∧ p.2 = strFind text p.1 ∧ p.2 ≠ -1 := by
  rw [rankCandidates, List.mem_insertionSort] at hp
  obtain ⟨hmem, hne⟩ := List.mem_filter.mp hp
  rw [find_substrings_in_response] at hmem
  obtain ⟨k, hk, rfl⟩ := List.mem_map.mp hmem
  exact ⟨hk, rfl, by simpa using hne⟩

theorem present_mem_rankCandidates (text : String) (keys : List String) (k : String)
    (hk : k ∈ keys) (hne : strFind text k ≠ -1) :
    (k, strFind text k) ∈ rankCandidates text keys := by
  rw [rankCandidates, List.mem_insertionSort]
  refine List.mem_filter.mpr ⟨?_, by simpa using hne⟩
  rw [find_substrings_in_response]
  exact List.mem_map.mpr ⟨k, hk, rfl⟩

theorem rankCandidates_head_min (text : String) (keys : List String) (hd : String × Int)
    (hh : (rankCandidates text keys).head? = some hd) :
    ∀ p ∈ rankCandidates text keys, hd.2 ≤ p.2 := by
  have hs : List.Sorted rankLe (rankCandidates text keys) :=
    List.sorted_insertionSort rankLe _
  intro p hp
  cases hrank : rankCandidates text keys with
  | nil => rw [hrank] at hp; cases hp
  | cons a tl =>
      rw [hrank] at hh hp hs
      have ha : a = hd := by injection hh
      subst ha
      rcases List.mem_cons.mp hp with rfl | htl
      · exact le_refl _
      · exact (List.pairwise_cons.mp hs).1 p htl

/-- C1: on the scenario dataset with rows region=[A,A,B], sales=[10,30,20],
columns [region,sales] and type bar, the claim expects the payload data
[[region A, sales 20.0], [region B, sales 20.0]] (duplicate labels merged by
arithmetic mean). The code instead raises: the text label column survives
type normalization as object dtype and the chained outlier filter calls
quantile on it, raising TypeError before the payload (and before the label
coercion with int, which would itself fail on "A"). The second conjunct
shows that on the same dataset with integer labels [1,1,2] the intended
mean aggregation is produced, so only the label handling breaks the
scenario. -/
theorem create_chartjs_data_region_sales_scenario :
    (create_chartjs_data
        [⟨"region", ColData.strs ["A", "A", "B"]⟩, ⟨"sales", ColData.ints [10, 30, 20]⟩]
        ["region", "sales"] "bar").1
      = Except.error (Err.typeError ("cannot compute quantile on object dtype")) ∧
    (create_chartjs_data
        [⟨"region", ColData.ints [1, 1, 2]⟩, ⟨"sales", ColData.ints [10, 30, 20]⟩]
        ["region", "sales"] "bar").1
      = Except.ok
          { chartType := "bar", labelsKey := "region", valuesKey := "sales",
            data := [[("region", Val.i 1), ("sales", Val.f 20)],
                     [("region", Val.i 2), ("sales", Val.f 20)]],
            hasScales := true, xTitle := "region" } := by
  exact ⟨by decide, by decide⟩

/-- C2: the claim says every pie/doughnut call on two existing columns
returns a payload whose data entries hold exactly the two selected keys and
that carries no scales. The code pops `options["scales"]` in the
pie/doughnut branch and then unconditionally writes
`options["scales"]["x"]["title"]["text"]`, so every pie/doughnut call
raises KeyError "scales" and never returns a payload. -/
theorem create_chartjs_data_pie_scales_crash :
    (create_chartjs_data [⟨"a", ColData.ints [1]⟩, ⟨"b", ColData.ints [2]⟩]
        ["a", "b"] "pie").1 = Except.error (Err.keyError ("scales")) ∧
    (create_chartjs_data [⟨"a", ColData.ints [1]⟩, ⟨"b", ColData.ints [2]⟩]
        ["a", "b"] "doughnut").1 = Except.error (Err.keyError ("scales")) := by
  exact ⟨by decide, by decide⟩

/-- C3: remove_outliers_iqr on a numeric column keeps exactly the rows whose
value lies inclusively within [Q1 - 1.5 IQR, Q3 + 1.5 IQR], where Q1 and Q3
are the linear-interpolation quartiles; removed values lie outside the
interval, and every column of the result is a same-name sublist of the
original (survivor order preserved). -/
theorem remove_outliers_iqr_bounds_spec (df : DataFrame) (c : String) (cd : ColData)
    (vs : List ℚ) (h1 : findCol df c = some cd) (h2 : colValsQ cd = some vs) :
    ∃ df', remove_outliers_iqr df c = Except.ok df' ∧
      (∃ cd', findCol df' c = some cd' ∧
          colValsQ cd' = some (vs.filter (inBoundsB vs))) ∧
      (∀ v ∈ vs.filter (inBoundsB vs), lowerBound vs ≤ v ∧ v ≤ upperBound vs) ∧
      (∀ v ∈ vs, ¬(lowerBound vs ≤ v ∧ v ≤ upperBound vs) →
          v ∉ vs.filter (inBoundsB vs)) ∧
      (∀ (i : ℕ) (col : Col), df[i]? = some col →
          ∃ col' : Col, df'[i]? = some col' ∧ col'.name = col.name ∧
            dataSublist col'.data col.data) := by
  refine ⟨mapData (maskCol (vs.map (inBoundsB vs))) df, ?_, ?_, ?_, ?_, ?_⟩
  · simp [remove_outliers_iqr, h1, h2]
  · refine ⟨maskCol (vs.map (inBoundsB vs)) cd, ?_, ?_⟩
    · rw [findCol_mapData, h1]
      rfl
    · rw [colValsQ_maskCol _ _ _ h2, maskSelect_map_filter]
  · intro v hv
    have hb : inBoundsB vs v = true := List.of_mem_filter hv
    simpa [inBoundsB] using hb
  · intro v _ hnb hmem
    exact hnb (by simpa [inBoundsB] using List.of_mem_filter hmem)
  · intro i col hcol
    refine ⟨{ col with data := maskCol (vs.map (inBoundsB vs)) col.data }, ?_, rfl, ?_⟩
    · simp [mapData, List.getElem?_map, hcol]
    · cases hd : col.data <;>
        simp [maskCol, dataSublist] <;>
        exact maskSelect_sublist _ _

/-- C3 witness: on the column [1,2,3,4,100] (Q1 = 2, Q3 = 4, bounds
[-1, 7]) the filter succeeds and the surviving values are [1,2,3,4]. -/
theorem remove_outliers_iqr_bounds_spec_witness :
    ∃ df', remove_outliers_iqr [⟨"x", ColData.ints [1, 2, 3, 4, 100]⟩] "x"
        = Except.ok df' ∧
      ∃ cd', findCol df' "x" = some cd' ∧ colValsQ cd' = some [1, 2, 3, 4] := by
  obtain ⟨df', hok, ⟨cd', hf, hv⟩, -, -, -⟩ :=
    remove_outliers_iqr_bounds_spec [⟨"x", ColData.ints [1, 2, 3, 4, 100]⟩] "x"
      (ColData.ints [1, 2, 3, 4, 100]) [1, 2, 3, 4, 100] (by decide) (by decide)
  exact ⟨df', hok, cd', hf, hv.trans (by decide)⟩

/-- C4: the claim says an empty selection or a missing column fails with the
validation ValueError and no other kind of failure. The empty selection does
(first conjunct), but the outlier loop runs before the existence check, so a
missing column raises KeyError from the column access inside
remove_outliers_iqr, never the validation error (second and third
conjuncts). -/
theorem create_chartjs_data_validation_eval :
    (create_chartjs_data [⟨"a", ColData.ints [1]⟩] ([] : List String) "bar").1
      = Except.error (Err.valueError ("column_names cannot be empty.")) ∧
    (create_chartjs_data [⟨"a", ColData.ints [1]⟩] ["b"] "bar").1
      = Except.error (Err.keyError ("b")) ∧
    (∀ msg : String, (create_chartjs_data [⟨"a", ColData.ints [1]⟩] ["b"] "bar").1
      ≠ Except.error (Err.valueError msg)) := by
  refine ⟨by decide, by decide, ?_⟩
  intro msg h
  have h2 : (create_chartjs_data [⟨"a", ColData.ints [1]⟩] ["b"] "bar").1
      = Except.error (Err.keyError ("b")) := by decide
  rw [h2] at h
  cases h

/-- C5 counterexample: the column ["1.5"] parses numerically in every cell
with a fractional value, so the claim demands coercion to floating point;
convert_to_numeric leaves it as a text column instead (the source keeps the
column as is in that branch). -/
theorem convert_to_numeric_fractional_counterexample :
    convert_to_numeric [⟨"a", ColData.strs ["1.5"]⟩] = [⟨"a", ColData.strs ["1.5"]⟩] ∧
    parseNum "1.5" = some (mkRat 3 2) ∧ isIntegral (mkRat 3 2) = false ∧
    isFloatColB (findCol (convert_to_numeric [⟨"a", ColData.strs ["1.5"]⟩]) "a")
      = false := by
  exact ⟨by decide, by decide, by decide, by decide⟩

/-- C5 amended: per column, if every cell parses numerically and every value
is integral the column becomes an integer column; if every cell parses but
some value is fractional the column is left unchanged (not coerced to
floating point); if some cell fails to parse the column is left as text; no
error is raised in any case. -/
theorem convert_to_numeric_conversion_spec (df : DataFrame) (c : String) (cd : ColData)
    (h : findCol df c = some cd) :
    findCol (convert_to_numeric df) c = some (convCol cd) ∧
    (∀ ss qs, cd = ColData.strs ss → parseAll ss = some qs →
        qs.all isIntegral = true → convCol cd = ColData.ints (qs.map Rat.num)) ∧
    (∀ ss qs, cd = ColData.strs ss → parseAll ss = some qs →
        qs.all isIntegral = false → convCol cd = cd) ∧
    (∀ ss, cd = ColData.strs ss → parseAll ss = none → convCol cd = cd) ∧
    (∀ vs, cd = ColData.floats vs → vs.all isIntegral = true →
        convCol cd = ColData.ints (vs.map Rat.num)) ∧
    (∀ vs, cd = ColData.floats vs → vs.all isIntegral = false → convCol cd = cd) ∧
    (∀ vs, cd = ColData.ints vs → convCol cd = cd) := by
  refine ⟨?_, ?_, ?_, ?_, ?_, ?_, ?_⟩
  · rw [convert_to_numeric, findCol_mapData, h]
    rfl
  · rintro ss qs rfl hp hall
    simp [convCol, hp, hall]
  · rintro ss qs rfl hp hall
    simp [convCol, hp, hall]
  · rintro ss rfl hp
    simp [convCol, hp]
  · rintro vs rfl hall
    simp [convCol, hall]
  · rintro vs rfl hall
    simp [convCol, hall]
  · rintro vs rfl
    rfl

/-- C5 witness: the text column ["2.0", "3"] parses to the integral values
[2, 3], so after convert_to_numeric it is the integer column [2, 3]. -/
theorem convert_to_numeric_conversion_spec_witness :
    findCol (convert_to_numeric [⟨"a", ColData.strs ["2.0", "3"]⟩]) "a"
      = some (ColData.ints [2, 3]) := by
  obtain ⟨h1, h2, -, -, -, -, -⟩ :=
    convert_to_numeric_conversion_spec [⟨"a", ColData.strs ["2.0", "3"]⟩] "a"
      (ColData.strs ["2.0", "3"]) (by decide)
  rw [h1, h2 ["2.0", "3"] [2, 3] rfl (by decide) (by decide)]
  decide

/-- C6 counterexample: the claim says the pipeline leaves the caller's
dataset unchanged. Calling create_chartjs_data on a dataset whose column is
the text column ["1"] leaves the caller holding the integer column [1]: the
in-place convert_to_numeric mutates the caller's DataFrame. -/
theorem create_chartjs_data_mutates_caller_counterexample :
    (create_chartjs_data [⟨"a", ColData.strs ["1"]⟩] ["a"] "bar").2
      ≠ [⟨"a", ColData.strs ["1"]⟩] := by
  decide

/-- C6 amended: the chained outlier filtering never destructively mutates
the caller (each remove_outliers_iqr returns a fresh DataFrame and the
result is only rebound locally); the sole caller-visible effect is the
in-place type coercion, so whenever the dataset is already in
convert_to_numeric normal form the caller's dataset is left unchanged by
the whole pipeline. -/
theorem create_chartjs_data_caller_frame (df : DataFrame) (column_names : List String)
    (chart_type : String) (h : convert_to_numeric df = df) :
    (create_chartjs_data df column_names chart_type).2 = df := by
  show convert_to_numeric df = df
  exact h

/-- C6 witness: an all-integer dataset is already in normal form and is left
untouched. -/
theorem create_chartjs_data_caller_frame_witness :
    (create_chartjs_data [⟨"a", ColData.ints [1]⟩] ["a"] "bar").2
      = [⟨"a", ColData.ints [1]⟩] :=
  create_chartjs_data_caller_frame [⟨"a", ColData.ints [1]⟩] ["a"] "bar" (by decide)

/-- C7: convert_to_numeric is idempotent: a second run changes nothing,
for every dataset. -/
theorem convert_to_numeric_idempotent (df : DataFrame) :
    convert_to_numeric (convert_to_numeric df) = convert_to_numeric df := by
  unfold convert_to_numeric mapData
  rw [List.map_map]
  apply List.map_congr_left
  intro col _
  show ({ col with data := convCol (convCol col.data) } : Col)
      = { col with data := convCol col.data }
  rw [convCol_idem]

/-- C8: in the first-offset ranking, a candidate that does not occur as a
substring of the response appears in no ranking (hence is never selected);
the head of the ranking has an offset no larger than any ranked candidate;
and the chosen chart type occurs in the text with an offset no larger than
any other occurring chart-type token. -/
theorem ranking_first_offset_spec (text : String) (keys : List String) :
    (∀ c : String, c ∈ keys → strFind text c = -1 →
        ∀ off : Int, (c, off) ∉ rankCandidates text keys) ∧
    (∀ hd : String × Int, (rankCandidates text keys).head? = some hd →
        ∀ p ∈ rankCandidates text keys, hd.2 ≤ p.2) ∧
    (∀ t : String, choose_chart_type text = some t →
        strFind text t ≠ -1 ∧
        ∀ u ∈ chartTypeKeys, strFind text u ≠ -1 → strFind text t ≤ strFind text u) := by
  refine ⟨?_, ?_, ?_⟩
  · intro c hc hfind off hmem
    obtain ⟨-, heq, hne⟩ := mem_rankCandidates text keys (c, off) hmem
    exact hne (heq.trans hfind)
  · intro hd hh p hp
    exact rankCandidates_head_min text keys hd hh p hp
  · intro t ht
    rw [choose_chart_type] at ht
    cases hx : (rankCandidates text chartTypeKeys).head? with
    | none => rw [hx] at ht; cases ht
    | some hd =>
        rw [hx] at ht
        have hdt : hd.1 = t := by simpa using ht
        have hdmem : hd ∈ rankCandidates text chartTypeKeys := by
          cases hrank : rankCandidates text chartTypeKeys with
          | nil => rw [hrank] at hx; cases hx
          | cons a tl =>
              have ha : a = hd := by
                rw [hrank] at hx
                simpa using hx
              rw [ha]
              exact List.mem_cons_self hd tl
        obtain ⟨hmemk, heq, hne⟩ := mem_rankCandidates text chartTypeKeys hd hdmem
        subst hdt
        refine ⟨heq ▸ hne, ?_⟩
        intro u hu hune
        have humem := present_mem_rankCandidates text chartTypeKeys u hu hune
        have hmin := rankCandidates_head_min text chartTypeKeys hd hx
          (u, strFind text u) humem
        rw [← heq]
        exact hmin

/-- C8 witness: scenario 2 of the spec: in the response
"I would use a pie chart" the token pie occurs (offset 14), bar and line do
not; pie is self-dominant and the absent pair (bar, -1) is in no ranking. -/
theorem ranking_first_offset_spec_witness :
    strFind "I would use a pie chart" "pie" ≠ -1 ∧
    strFind "I would use a pie chart" "pie" ≤ strFind "I would use a pie chart" "pie" ∧
    (("bar", (-1 : Int)) ∉ rankCandidates "I would use a pie chart" chartTypeKeys) := by
  have h := ranking_first_offset_spec "I would use a pie chart" chartTypeKeys
  have h3 := h.2.2 "pie" (by decide)
  exact ⟨h3.1, h3.2 "pie" (by decide) h3.1, h.1 "bar" (by decide) (by decide) (-1)⟩

/-- C9: on a dataset with zero rows, remove_outliers_iqr applied to any of
its columns does not fail: it returns a dataset with zero rows. -/
theorem remove_outliers_iqr_empty_ok (df : DataFrame) (c : String) (cd : ColData)
    (h1 : findCol df c = some cd) (h0 : ∀ col ∈ df, colLen col.data = 0) :
    ∃ df', remove_outliers_iqr df c = Except.ok df' ∧
      ∀ col ∈ df', colLen col.data = 0 := by
  obtain ⟨col0, hmem, hname, hdata⟩ := findCol_mem df c cd h1
  have hcd : colLen cd = 0 := by
    rw [← hdata]
    exact h0 col0 hmem
  have hvs : colValsQ cd = some [] := by
    cases cd with
    | ints vs =>
        cases vs with
        | nil => rfl
        | cons a l => simp [colLen] at hcd
    | floats vs =>
        cases vs with
        | nil => rfl
        | cons a l => simp [colLen] at hcd
    | strs ss =>
        cases ss with
        | nil => rfl
        | cons a l => simp [colLen] at hcd
  refine ⟨mapData (maskCol (([] : List ℚ).map (inBoundsB []))) df, ?_, ?_⟩
  · simp [remove_outliers_iqr, h1, hvs]
  · intro col hmem2
    simp only [mapData, List.mem_map] at hmem2
    obtain ⟨col1, hcol1, rfl⟩ := hmem2
    cases hd : col1.data <;> simp [maskCol, colLen, maskSelect_nil, hd]

/-- C9 witness: a two-column zero-row dataset (one text column, one integer
column) filtered on its text column returns zero rows without failing. -/
theorem remove_outliers_iqr_empty_ok_witness :
    ∃ df', remove_outliers_iqr [⟨"a", ColData.strs []⟩, ⟨"b", ColData.ints []⟩] "a"
        = Except.ok df' ∧ ∀ col ∈ df', colLen col.data = 0 :=
  remove_outliers_iqr_empty_ok [⟨"a", ColData.strs []⟩, ⟨"b", ColData.ints []⟩] "a"
    (ColData.strs []) (by decide) (by decide)

/-- C10 counterexample: the claim says any bar call whose label column holds
a text value not parseable by Python int raises. The label column ["2.0"]
holds such a value (int "2.0" raises in Python), yet the call returns a
payload: convert_to_numeric turns ["2.0"] into the integer column [2]
before the label coercion runs. -/
theorem bar_label_int_coercion_counterexample :
    pyIntParse "2.0" = none ∧
    findCol [⟨"a", ColData.strs ["2.0"]⟩, ⟨"b", ColData.ints [5]⟩] "a"
      = some (ColData.strs ["2.0"]) ∧
    isOkB (create_chartjs_data [⟨"a", ColData.strs ["2.0"]⟩, ⟨"b", ColData.ints [5]⟩]
        ["a", "b"] "bar").1 = true := by
  exact ⟨by decide, by decide, by decide⟩

/-- C10 amended: the int coercion of the label column applies after type
normalization; whenever the first selected column is still a nonempty text
column after convert_to_numeric (some cell non-numeric, or some parsed value
fractional), the call raises — a TypeError inside the outlier filter's
quantile, reached before the int label coercion — instead of returning a
payload; a text label such as "2.0" that normalizes to an integer does not
make the call raise. -/
theorem bar_label_text_column_raises (df : DataFrame) (c : String) (rest : List String)
    (chart_type : String) (ss : List String)
    (h1 : findCol (convert_to_numeric df) c = some (ColData.strs ss)) (h2 : ss ≠ []) :
    (create_chartjs_data df (c :: rest) chart_type).1
      = Except.error (Err.typeError ("cannot compute quantile on object dtype")) := by
  have hss : ss.isEmpty = false := by
    cases ss with
    | nil => exact absurd rfl h2
    | cons a l => rfl
  have hrm : remove_outliers_iqr (convert_to_numeric df) c
      = Except.error (Err.typeError ("cannot compute quantile on object dtype")) := by
    unfold remove_outliers_iqr
    rw [h1]
    simp [colValsQ, hss]
  show buildChart (convert_to_numeric df) (c :: rest) chart_type = _
  unfold buildChart
  rw [List.foldlM_cons, hrm]
  rfl

/-- C10 amended witness: on the label column ["A"] (non-numeric text) the
bar call raises the TypeError. -/
theorem bar_label_text_column_raises_witness :
    (create_chartjs_data [⟨"a", ColData.strs ["A"]⟩] ["a"] "bar").1
      = Except.error (Err.typeError ("cannot compute quantile on object dtype")) :=
  bar_label_text_column_raises [⟨"a", ColData.strs ["A"]⟩] "a" [] "bar" ["A"]
    (by decide) (by decide)
